import Mathlib

/-!
Shallow embedding of the four-layer DAG iterative construction engine
(`src/mcp_feedback_enhanced/dag_tools/four_layer_iterator.py`):
`IterationStrategy`, `ConvergenceEvaluator`, `LayerOptimizer` and
`FourLayerIterator.iterate_build`, together with theorems settling the
documented properties of the engine.

Modelling conventions:
- Python floats are modelled as exact rationals (`ℚ`); all arithmetic the
  engine performs on scores and priorities is addition, multiplication,
  division, `min`/`max` and comparison at magnitudes where rounding cannot
  change any comparison made by the engine.
- Python dicts with string keys are modelled as association lists
  (`List (String × α)`), preserving insertion order; duck-typed JSON
  payloads are modelled by the inductive `JVal`.
- Stateful methods are modelled by explicit state passing; methods that can
  raise (`KeyError` / `AttributeError` / `TypeError` on ill-shaped payloads,
  `NameError` on an unbound local) return `Option`/flagged outcomes, with
  `none` / an error flag marking the raising executions.
- Wall-clock quantities (`time.time()` deltas, `datetime.now()` timestamps)
  carry no information used by any control decision; they are modelled as
  the constants `0` / `""`.
- The external Data Store (`UnifiedDAGModel` from `dag_models`, imported by
  the engine but not present under `src/`) is modelled from the spec's Data
  Store contract; each such definition is marked `Modelled from the spec:`.
-/

/-- Duck-typed JSON-like value: the shape of the feedback / requirements
payloads and of the Data Store's state and metadata bags. -/
inductive JVal where
  | jstr : String → JVal
  | jnum : ℚ → JVal
  | jobj : List (String × JVal) → JVal

/-- Python dict lookup `d.get(k)` on an insertion-ordered association list. -/
def jget {α : Type} (fields : List (String × α)) (k : String) : Option α :=
  (fields.find? (fun p => p.1 == k)).map (fun p => p.2)

/-- Python dict assignment `d[k] = v`: replace in place if the key exists,
else append (insertion order preserved). -/
def setKey {α : Type} (l : List (String × α)) (k : String) (v : α) : List (String × α) :=
  if l.any (fun p => p.1 == k) then l.map (fun p => if p.1 == k then (k, v) else p)
  else l ++ [(k, v)]

/-- Python `d.update(upd)` for string-keyed dicts. -/
def dictUpdate {α : Type} (l : List (String × α)) (upd : List (String × α)) :
    List (String × α) :=
  upd.foldl (fun acc p => setKey acc p.1 p.2) l

/-- Project an optional `JVal` to a string; `none` when absent or not a
string.  Used to model Python `==` comparisons of a looked-up value against
a string literal (false unless the value is that string). -/
def jstrOf : Option JVal → Option String
  | some (JVal.jstr s) => some s
  | _ => none

/-- Read an optional `JVal` as a number with default `0`, modelling
`state.get(k, 0)` for a key the core reads numerically (a non-numeric value
under that key, which the core never writes, is read as the default). -/
def jnumOf : Option JVal → ℚ
  | some (JVal.jnum q) => q
  | _ => 0

/-- Modelled from the spec: the four fixed layers of `dag_models.LayerType`
(module not under `src/`); the spec fixes the enumerants `function`,
`logic`, `code`, `order` in that order. -/
inductive LayerType where
  | function
  | logic
  | code
  | order
deriving DecidableEq

/-- The string `.value` of each `LayerType` enumerant. -/
def LayerType.value : LayerType → String
  | .function => "function"
  | .logic => "logic"
  | .code => "code"
  | .order => "order"

/-- `LayerType(name)`: `some` exactly for the four member values
(the Python constructor raises `ValueError` otherwise, which every caller
in the engine either pre-checks or catches). -/
def LayerType.ofString : String → Option LayerType
  | "function" => some .function
  | "logic" => some .logic
  | "code" => some .code
  | "order" => some .order
  | _ => none

/-- Iteration order of `for layer_type in LayerType` (enum definition
order, as fixed by the spec). -/
def LayerType.all : List LayerType := [.function, .logic, .code, .order]

/-- `OptimizationFocus` enum (`structure'` models the member named
`STRUCTURE`; `structure` is a Lean keyword). -/
inductive OptimizationFocus where
  | structure'
  | dependencies
  | completeness
  | consistency
  | quality
deriving DecidableEq

/-- `OptimizationFocus(name)`: `some` exactly for the member values. -/
def OptimizationFocus.ofString : String → Option OptimizationFocus
  | "structure" => some .structure'
  | "dependencies" => some .dependencies
  | "completeness" => some .completeness
  | "consistency" => some .consistency
  | "quality" => some .quality
  | _ => none

/-- `IterationPhase` enum. -/
inductive IterationPhase where
  | initializing
  | iterating
  | waiting_feedback
  | processing_feedback
  | finalizing
  | completed
  | error
deriving DecidableEq

/-- `IterationConfig` dataclass with its field defaults
(`convergence_threshold = 0.85 = 17/20`). -/
structure IterationConfig where
  max_iterations : Int := 20
  convergence_threshold : ℚ := 17/20
  feedback_frequency : Int := 3
  parallel_optimization : Bool := true
  quality_gates_enabled : Bool := true
  auto_adjust_strategy : Bool := true
  timeout_per_iteration : Int := 30

/-- `IterationMetrics` dataclass with its field defaults
(`optimization_time` is wall-clock, modelled as `0`). -/
structure IterationMetrics where
  iteration_number : Int := 0
  convergence_score : ℚ := 0
  quality_score : ℚ := 0
  completion_percentage : ℚ := 0
  layer_scores : List (String × ℚ) := []
  optimization_time : ℚ := 0
  total_nodes : Nat := 0
  total_edges : Nat := 0
  validation_errors : List String := []
deriving DecidableEq

/-- `IterationStrategy` dataclass.  `layer_priorities` is a `Dict` whose key
set is always exactly the four layers (populated by the default factory and
only ever updated at `LayerType` keys), modelled as a total function; the
`.get(layer_type, 1.0)` default in the source is therefore never taken. -/
structure IterationStrategy where
  current_focus : OptimizationFocus
  layer_priorities : LayerType → ℚ
  optimization_params : List (String × JVal)

/-- `IterationStrategy()` with its default factory values
(function 1.0, logic 0.8, code 0.6, order 0.4). -/
def defaultStrategy : IterationStrategy where
  current_focus := .structure'
  layer_priorities := fun
    | .function => 1
    | .logic => 4/5
    | .code => 3/5
    | .order => 2/5
  optimization_params := []

/-- Pointwise update of the priority dict. -/
def updatePriority (p : LayerType → ℚ) (lt : LayerType) (q : ℚ) : LayerType → ℚ :=
  fun l => if l = lt then q else p l

/-- One loop step of `IterationStrategy.adjust_priorities`: skip names that
are not layer values; clamp `current + delta` to `[0.1, 2.0]` for valid
names.  A non-numeric delta makes `current_priority + priority_delta` raise
(`none`). -/
def adjust_one (p : LayerType → ℚ) (item : String × JVal) : Option (LayerType → ℚ) :=
  match LayerType.ofString item.1 with
  | none => some p
  | some lt =>
    match item.2 with
    | JVal.jnum d => some (updatePriority p lt (max (1/10) (min 2 (p lt + d))))
    | _ => none

/-- `IterationStrategy.adjust_priorities(feedback)`: if the dict has a
`"layer_feedback"` key, fold its items; absent key is a no-op; a
non-dict `"layer_feedback"` value has no `.items()` and raises (`none`). -/
def adjust_priorities (s : IterationStrategy) (feedback : List (String × JVal)) :
    Option IterationStrategy :=
  match jget feedback "layer_feedback" with
  | none => some s
  | some (JVal.jobj items) =>
      (items.foldlM adjust_one s.layer_priorities).map
        (fun p => { s with layer_priorities := p })
  | some _ => none

/-- `FourLayerIterator._apply_strategy_adjustments`: an invalid or
non-string `"focus"` value raises `ValueError` inside the `try`, which is
caught and ignored; a non-dict `"optimization_params"` value makes
`dict.update` raise (`none`). -/
def apply_strategy_adjustments (s : IterationStrategy) (sa : List (String × JVal)) :
    Option IterationStrategy :=
  let s1 := match jget sa "focus" with
    | some (JVal.jstr f) =>
        match OptimizationFocus.ofString f with
        | some foc => { s with current_focus := foc }
        | none => s
    | _ => s
  match jget sa "optimization_params" with
  | none => some s1
  | some (JVal.jobj ps) =>
      some { s1 with optimization_params := dictUpdate s1.optimization_params ps }
  | some _ => none

/-- `FourLayerIterator._process_user_feedback(feedback)` as a function of
the iterator's strategy.  The argument is the value produced by
`_request_user_feedback`: `some` dict, or `none` when `_safe_callback`
swallowed a callback error and returned `None` — in which case
`feedback.get` raises `AttributeError` (`none`).  On `"adjust"`, the code
passes the *whole* `adjustments` dict to `adjust_priorities` (not
`adjustments["layer_priorities"]`). -/
def process_user_feedback (s : IterationStrategy)
    (feedback : Option (List (String × JVal))) : Option IterationStrategy :=
  match feedback with
  | none => none
  | some fb =>
    let decision := jstrOf (jget fb "decision")
    if decision = some "reject" then
      some { defaultStrategy with current_focus := .structure' }
    else if decision = some "adjust" then
      match jget fb "adjustments" with
      | none => some s
      | some (JVal.jobj adjustments) =>
        match (if (jget adjustments "strategy").isSome then
                 match jget adjustments "strategy" with
                 | some (JVal.jobj sa) => apply_strategy_adjustments s sa
                 | _ => none
               else some s) with
        | none => none
        | some s1 =>
          if (jget adjustments "layer_priorities").isSome then
            adjust_priorities s1 adjustments
          else some s1
      | some _ => none
    else some s

/-- One loop step of `FourLayerIterator._initialize_strategy_from_requirements`:
`LayerType(layer_name)` / `float(priority)` errors are caught and skipped;
a numeric priority is stored **without clamping**.  (Numeric strings, which
`float()` would also parse, do not occur in the modelled inputs.) -/
def init_one (p : LayerType → ℚ) (item : String × JVal) : LayerType → ℚ :=
  match LayerType.ofString item.1 with
  | none => p
  | some lt =>
    match item.2 with
    | JVal.jnum q => updatePriority p lt q
    | _ => p

/-- `FourLayerIterator._initialize_strategy_from_requirements(requirements)`:
invalid `"focus"` values are ignored; a non-dict `"layer_priorities"` value
has no `.items()` and raises outside any handler (`none`). -/
def initialize_strategy_from_requirements (s : IterationStrategy)
    (req : List (String × JVal)) : Option IterationStrategy :=
  let s1 := match jget req "focus" with
    | some (JVal.jstr f) =>
        match OptimizationFocus.ofString f with
        | some foc => { s with current_focus := foc }
        | none => s
    | _ => s
  match jget req "layer_priorities" with
  | none => some s1
  | some (JVal.jobj items) =>
      some { s1 with layer_priorities := items.foldl init_one s1.layer_priorities }
  | some _ => none

/-- Modelled from the spec: `dag_models.BaseNodeData` (module not under
`src/`) — identifier, display label, owning layer, positional hint (x, y),
free-form metadata. -/
structure BaseNodeData where
  id : String
  label : String
  layer : String
  posx : Int
  posy : Int
  metadata : List (String × JVal)

/-- Modelled from the spec: `dag_models.BaseEdgeData` — a directed relation
between two node identifiers within a layer; the core only ever counts
edges. -/
structure BaseEdgeData where
  id : String
  source : String
  target : String

/-- Modelled from the spec: the external Layer Data Store
(`dag_models.UnifiedDAGModel`, not under `src/`).  Per the spec's Data
Store contract it holds, per layer, id-keyed node and edge maps
(`getLayerData`), cross-layer mapping tables (`getCrossLayerMappings`
returning a list of target ids), and mutable string-keyed `state` and
`metadata` bags. -/
structure DataStore where
  nodes : LayerType → List (String × BaseNodeData)
  edges : LayerType → List (String × BaseEdgeData)
  cross_layer_mappings : LayerType → LayerType → String → List String
  state : List (String × JVal)
  metadata : List (String × JVal)

/-- Modelled from the spec: `addNode(layer, node)` stores the node under
its id in that layer's node map. -/
def DataStore.add_node (dag : DataStore) (lt : LayerType) (n : BaseNodeData) : DataStore :=
  { dag with nodes := fun l => if l = lt then setKey (dag.nodes lt) n.id n else dag.nodes l }

/-- A Data Store with no nodes, edges, mappings, state or metadata. -/
def emptyStore : DataStore where
  nodes := fun _ => []
  edges := fun _ => []
  cross_layer_mappings := fun _ _ _ => []
  state := []
  metadata := []

/-- Per-layer accumulation step of
`ConvergenceEvaluator._evaluate_structure_completeness`: layers with zero
nodes are skipped; otherwise the layer contributes the average of the node
score `min(1, n/5)` and the connectivity score
`min(1, e / max(1, n*(n-1)) * 10)` (0 when `n ≤ 1`), and the layer count
increases. -/
def struct_step (dag : DataStore) (acc : ℚ × Nat) (lt : LayerType) : ℚ × Nat :=
  let nodes := dag.nodes lt
  let edges := dag.edges lt
  if nodes.length > 0 then
    let node_score : ℚ := min 1 ((nodes.length : ℚ) / 5)
    let connectivity_score : ℚ :=
      if nodes.length > 1 then
        let max_possible_edges : ℚ := (nodes.length : ℚ) * ((nodes.length : ℚ) - 1)
        min 1 ((edges.length : ℚ) / max 1 max_possible_edges * 10)
      else 0
    (acc.1 + (node_score + connectivity_score) / 2, acc.2 + 1)
  else acc

/-- `ConvergenceEvaluator._evaluate_structure_completeness(dag)`. -/
def evaluate_structure_completeness (dag : DataStore) : ℚ :=
  let r := LayerType.all.foldl (struct_step dag) (0, 0)
  r.1 / max 1 (r.2 : ℚ)

/-- Per-node step of `ConvergenceEvaluator._evaluate_layer_consistency`:
`mapping_completeness` (a float in the source, initialised to `0.0`) is
incremented when the node has at least one mapping into the target layer;
`total_mappings` is always incremented. -/
def map_step (dag : DataStore) (src tgt : LayerType) (acc : ℚ × Nat)
    (p : String × BaseNodeData) : ℚ × Nat :=
  ((if dag.cross_layer_mappings src tgt p.1 ≠ [] then acc.1 + 1 else acc.1), acc.2 + 1)

/-- `ConvergenceEvaluator._evaluate_layer_consistency(dag)`: function→logic
mappings checked for every function-layer node, then logic→code mappings
for every logic-layer node. -/
def evaluate_layer_consistency (dag : DataStore) : ℚ :=
  let acc1 := (dag.nodes .function).foldl (map_step dag .function .logic) (0, 0)
  let acc2 := (dag.nodes .logic).foldl (map_step dag .logic .code) acc1
  acc2.1 / max 1 (acc2.2 : ℚ)

/-- `ConvergenceEvaluator._evaluate_quality_metrics(dag)`: validation
status indicator (`"passed"` → 1.0, `"partial"` → 0.6, else 0.2), plus
`min(1, total_nodes/10)` when `state.get("total_nodes", 0) > 0`; the score
is the mean of the present indicators. -/
def evaluate_quality_metrics (dag : DataStore) : ℚ :=
  let vs := jstrOf (jget dag.state "validation_status")
  let first : ℚ := if vs = some "passed" then 1 else if vs = some "partial" then 3/5 else 1/5
  let total_nodes : ℚ := jnumOf (jget dag.state "total_nodes")
  let quality_indicators : List ℚ :=
    if total_nodes > 0 then [first, min 1 (total_nodes / 10)] else [first]
  quality_indicators.sum / max 1 (quality_indicators.length : ℚ)

/-- `ConvergenceEvaluator._evaluate_stability()` as a function of the
evaluator's history: below 3 entries return 0.5; otherwise population
variance of the convergence scores of the last 3 entries
(`history[-3:]`), and `max(0, 1 - variance * 10)`. -/
def evaluate_stability (history : List IterationMetrics) : ℚ :=
  if history.length < 3 then 1/2
  else
    let recent := (history.drop (history.length - 3)).map (fun m => m.convergence_score)
    let variance :=
      ((recent.map (fun score => (score - recent.sum / (recent.length : ℚ)) ^ 2)).sum) /
        (recent.length : ℚ)
    max 0 (1 - variance * 10)

/-- `ConvergenceEvaluator.evaluate_convergence(dag)` as a function of the
store and the evaluator's history: the four sub-scores combined with
weights `[0.3, 0.3, 0.25, 0.15]`, clamped by `min(1.0, max(0.0, ·))`. -/
def evaluate_convergence (dag : DataStore) (history : List IterationMetrics) : ℚ :=
  let scores : List ℚ :=
    [evaluate_structure_completeness dag, evaluate_layer_consistency dag,
     evaluate_quality_metrics dag, evaluate_stability history]
  let weights : List ℚ := [3/10, 3/10, 1/4, 3/20]
  let convergence_score := ((scores.zip weights).map (fun p => p.1 * p.2)).sum
  min 1 (max 0 convergence_score)

/-- State-passing translation of the call
`ConvergenceEvaluator.evaluate_convergence(dag)`: every statement of the
method body binds a local from reads of the store / history (the method
performs no write), so the call returns the score together with the store
and history it was given. -/
def evaluate_convergence_call (dag : DataStore) (history : List IterationMetrics) :
    ℚ × DataStore × List IterationMetrics :=
  let structure_score := evaluate_structure_completeness dag
  let consistency_score := evaluate_layer_consistency dag
  let quality_score := evaluate_quality_metrics dag
  let stability_score := evaluate_stability history
  let scores : List ℚ := [structure_score, consistency_score, quality_score, stability_score]
  let weights : List ℚ := [3/10, 3/10, 1/4, 3/20]
  let convergence_score := ((scores.zip weights).map (fun p => p.1 * p.2)).sum
  (min 1 (max 0 convergence_score), dag, history)

/-- `ConvergenceEvaluator.add_metrics(metrics)`: append, then truncate to
the most recent 50 entries when the history exceeds 50. -/
def add_metrics (history : List IterationMetrics) (m : IterationMetrics) :
    List IterationMetrics :=
  let h := history ++ [m]
  if h.length > 50 then h.drop (h.length - 50) else h

/-- Truncation applied by `add_metrics`, factored out: keep the most recent
50 entries. -/
def keepLast50 (l : List IterationMetrics) : List IterationMetrics :=
  if l.length > 50 then l.drop (l.length - 50) else l

/-- `LayerOptimizer._get_initial_node_templates()`: the fixed
(label, metadata) template set of each layer. -/
def initial_node_templates (lt : LayerType) : List (String × List (String × JVal)) :=
  match lt with
  | .function =>
      [("需求分析", [("type", JVal.jstr "analysis")]),
       ("功能设计", [("type", JVal.jstr "design")]),
       ("用户验证", [("type", JVal.jstr "validation")])]
  | .logic =>
      [("架构设计", [("type", JVal.jstr "architecture")]),
       ("API设计", [("type", JVal.jstr "api")]),
       ("数据模型", [("type", JVal.jstr "data")])]
  | .code =>
      [("核心模块", [("type", JVal.jstr "module")]),
       ("工具类", [("type", JVal.jstr "utility")]),
       ("测试代码", [("type", JVal.jstr "test")])]
  | .order =>
      [("第一阶段", [("type", JVal.jstr "phase"), ("order", JVal.jnum 1)]),
       ("第二阶段", [("type", JVal.jstr "phase"), ("order", JVal.jnum 2)]),
       ("第三阶段", [("type", JVal.jstr "phase"), ("order", JVal.jnum 3)])]

/-- `LayerOptimizer._create_initial_nodes(dag, strategy)`:
`for i, template in enumerate(templates)`, add a node with id
`"{layer}_{i+1}"`, the template's label and metadata, and position
`{"x": i*200, "y": 100}`.  (The `strategy` argument is unused by the
source body.) -/
def create_initial_nodes (lt : LayerType) (dag : DataStore) : DataStore :=
  ((initial_node_templates lt).foldl
    (fun (acc : DataStore × Nat) t =>
      (acc.1.add_node lt
        { id := lt.value ++ "_" ++ toString (acc.2 + 1)
          label := t.1
          layer := lt.value
          posx := (acc.2 : Int) * 200
          posy := 100
          metadata := t.2 },
       acc.2 + 1))
    (dag, 0)).1

/-- `LayerOptimizer._optimize_structure(dag, strategy, iteration_number)`
restricted to its effect on the store: seed the layer's initial nodes
exactly when this is iteration 1 and the layer has no nodes.  (The
returned report dict `{action, nodes_processed, changes_made}` is dropped
unread by `_execute_single_iteration` and is not modelled.) -/
def optimize_structure (lt : LayerType) (dag : DataStore) (iteration_number : Int) :
    DataStore :=
  if iteration_number = 1 ∧ (dag.nodes lt).length = 0 then create_initial_nodes lt dag
  else dag

/-- `LayerOptimizer.optimize(dag, strategy, iteration_number)` restricted
to its effect on the store: only the structure focus ever mutates the
store; the dependency / completeness / consistency / quality passes only
build report dicts. -/
def optimize_layer (lt : LayerType) (strategy : IterationStrategy) (dag : DataStore)
    (iteration_number : Int) : DataStore :=
  match strategy.current_focus with
  | .structure' => optimize_structure lt dag iteration_number
  | _ => dag

/-- `FourLayerIterator._calculate_layer_score(dag, layer_type)`. -/
def calculate_layer_score (dag : DataStore) (lt : LayerType) : ℚ :=
  let nodes := dag.nodes lt
  let edges := dag.edges lt
  if nodes.length = 0 then 0
  else
    let node_score : ℚ := min 1 ((nodes.length : ℚ) / 5)
    let edge_score : ℚ :=
      if nodes.length > 1 then
        let max_edges : ℚ := (nodes.length : ℚ) * ((nodes.length : ℚ) - 1) / 2
        min 1 ((edges.length : ℚ) / max 1 max_edges * 5)
      else 0
    (node_score + edge_score) / 2

/-- `FourLayerIterator._execute_single_iteration(dag)` as a function of
the strategy, the evaluator's history, the store and the current iteration
number.  The four optimizers run over the four layers in enum order: with
`parallel_optimization` the source gathers four coroutines that contain no
true suspension point, so the gather runs them to completion in creation
order (the dict order FUNCTION, LOGIC, CODE, ORDER), identical to the
sequential branch. -/
def execute_single_iteration (strategy : IterationStrategy)
    (evalHistory : List IterationMetrics) (dag : DataStore)
    (current_iteration : Int) : IterationMetrics × DataStore :=
  let dag := LayerType.all.foldl
    (fun d lt => optimize_layer lt strategy d current_iteration) dag
  let conv := evaluate_convergence dag evalHistory
  let metrics : IterationMetrics :=
    { iteration_number := 0
      convergence_score := conv
      quality_score := evaluate_quality_metrics dag
      completion_percentage := min 100 (conv * 100)
      layer_scores := LayerType.all.map (fun lt => (lt.value, calculate_layer_score dag lt))
      optimization_time := 0
      total_nodes := (LayerType.all.map (fun lt => (dag.nodes lt).length)).sum
      total_edges := (LayerType.all.map (fun lt => (dag.edges lt).length)).sum
      validation_errors := [] }
  (metrics, dag)

/-- `FourLayerIterator._finalize_dag(dag)`: stamp the state as passed with
a last-modified timestamp (wall clock, modelled as `""`). -/
def finalize_dag (dag : DataStore) : DataStore :=
  let dag1 := { dag with state := setKey dag.state "validation_status" (JVal.jstr "passed") }
  { dag1 with state := setKey dag1.state "last_modified" (JVal.jstr "") }

/-- The registered feedback callback, as an arbitrary function of the data
the feedback payload (`_prepare_feedback_data`, a read-only projection of
the store, the round's metrics and the iteration number) is built from.
`none` models a callback that raises (swallowed by `_safe_callback`, which
then returns `None`) or returns `None`; `some fb` a callback returning the
dict `fb`. -/
def FeedbackCallback : Type :=
  DataStore → IterationMetrics → Int → Option (List (String × JVal))

/-- The mutable state of one `iterate_build` run: the store (mutated in
place), the iterator's strategy, the evaluator's history, the iterator's
own history, the iteration counter, the phase, the local variable
`metrics` of the loop body (`none` while unbound), and whether an
exception has been raised. -/
structure LoopState where
  dag : DataStore
  strategy : IterationStrategy
  evalHistory : List IterationMetrics
  iterHistory : List IterationMetrics
  current_iteration : Int
  phase : IterationPhase
  lastMetrics : Option IterationMetrics
  error : Bool

/-- One body execution of the `while` loop of
`FourLayerIterator.iterate_build`: increment the counter, run one
iteration round, record the metrics in both histories, invoke the progress
callback (its return value is ignored and its errors swallowed — no
modelled effect), then the feedback step (the `%` raises when
`feedback_frequency` is 0; the feedback branch runs only when a feedback
callback is registered; a failing `_process_user_feedback` raises), then
the convergence check (finalize and complete when the threshold is
reached). -/
def iterationRound (cfg : IterationConfig) (fcb : Option FeedbackCallback)
    (st : LoopState) : LoopState :=
  let it := st.current_iteration + 1
  let r := execute_single_iteration st.strategy st.evalHistory st.dag it
  let metrics := { r.1 with iteration_number := it }
  let st1 : LoopState :=
    { st with
      dag := r.2
      current_iteration := it
      iterHistory := st.iterHistory ++ [metrics]
      evalHistory := add_metrics st.evalHistory metrics
      lastMetrics := some metrics }
  if cfg.feedback_frequency = 0 then { st1 with phase := .error, error := true }
  else
    let st2 :=
      if it % cfg.feedback_frequency = 0 then
        match fcb with
        | none => st1
        | some cb =>
          match process_user_feedback st1.strategy (cb st1.dag metrics it) with
          | some s' => { st1 with strategy := s', phase := .iterating }
          | none => { st1 with phase := .error, error := true }
      else st1
    if st2.error then st2
    else if metrics.convergence_score ≥ cfg.convergence_threshold then
      { st2 with dag := finalize_dag st2.dag, phase := .completed }
    else st2

/-- The `while (current_iteration < max_iterations and phase != COMPLETED)`
loop, fuelled: the counter rises by exactly 1 per round, so
`max_iterations.toNat` fuel makes the fuel-out and guard-out conditions
coincide; a raised exception exits the loop immediately. -/
def iterateLoop (cfg : IterationConfig) (fcb : Option FeedbackCallback) :
    Nat → LoopState → LoopState
  | 0, st => st
  | fuel + 1, st =>
    if st.current_iteration < cfg.max_iterations ∧ st.phase ≠ .completed then
      let st' := iterationRound cfg fcb st
      if st'.error then st' else iterateLoop cfg fcb fuel st'
    else st

/-- The observable outcome of a call to `iterate_build`: whether the call
returned normally (`false` = it raised), the store's contents after the
call (the store is mutated in place, so mutations made before a raise
persist), and the iterator's fields. -/
structure BuildOutcome where
  returned : Bool
  dag : DataStore
  phase : IterationPhase
  current_iteration : Int
  strategy : IterationStrategy
  evalHistory : List IterationMetrics
  iterHistory : List IterationMetrics

/-- `FourLayerIterator.iterate_build(dag, initial_requirements)` on a
freshly constructed iterator.  `initial_requirements` is seeded into the
strategy only when truthy (`none` and `{}` are both modelled by the empty
list); a raise during seeding happens before the `try`, leaving the phase
at INITIALIZING.  After the loop, the store is stamped in source order:
`metadata["stage"]` (the `DAGStage.IMPLEMENTATION.value` of the absent
`dag_models` module, modelled from the spec as the stage name string),
`state["current_iteration"]`, then `state["convergence_score"]` — which
reads the loop-body local `metrics` and raises `NameError` when the loop
body never ran — then `state["validation_status"] = "completed"`.  Any
raise inside the `try` sets the phase to ERROR and re-raises. -/
def iterate_build (cfg : IterationConfig) (fcb : Option FeedbackCallback)
    (dag0 : DataStore) (initReq : List (String × JVal)) : BuildOutcome :=
  match (if initReq.isEmpty then some defaultStrategy
         else initialize_strategy_from_requirements defaultStrategy initReq) with
  | none =>
    { returned := false, dag := dag0, phase := .initializing, current_iteration := 0
      strategy := defaultStrategy, evalHistory := [], iterHistory := [] }
  | some strat =>
    let st0 : LoopState :=
      { dag := dag0, strategy := strat, evalHistory := [], iterHistory := []
        current_iteration := 0, phase := .iterating, lastMetrics := none, error := false }
    let stF := iterateLoop cfg fcb cfg.max_iterations.toNat st0
    if stF.error then
      { returned := false, dag := stF.dag, phase := .error
        current_iteration := stF.current_iteration, strategy := stF.strategy
        evalHistory := stF.evalHistory, iterHistory := stF.iterHistory }
    else
      let dag1 := { stF.dag with
        metadata := setKey stF.dag.metadata "stage" (JVal.jstr "implementation") }
      let dag2 := { dag1 with
        state := setKey dag1.state "current_iteration" (JVal.jnum stF.current_iteration) }
      match stF.lastMetrics with
      | none =>
        { returned := false, dag := dag2, phase := .error
          current_iteration := stF.current_iteration, strategy := stF.strategy
          evalHistory := stF.evalHistory, iterHistory := stF.iterHistory }
      | some m =>
        let dag3 := { dag2 with
          state := setKey dag2.state "convergence_score" (JVal.jnum m.convergence_score) }
        let dag4 := { dag3 with
          state := setKey dag3.state "validation_status" (JVal.jstr "completed") }
        { returned := true, dag := dag4, phase := stF.phase
          current_iteration := stF.current_iteration, strategy := stF.strategy
          evalHistory := stF.evalHistory, iterHistory := stF.iterHistory }

/-- Population variance of a list of rationals, following the spec's words
("compute the population variance of the convergence scores of the last 3
iterations"): mean of the squared deviations from the mean. -/
def specPopulationVariance (xs : List ℚ) : ℚ :=
  ((xs.map (fun s => (s - xs.sum / (xs.length : ℚ)) ^ 2)).sum) / (xs.length : ℚ)

/-- All four layer priorities of a strategy lie in the documented range
`[0.1, 2.0]`. -/
def prioritiesInRange (s : IterationStrategy) : Prop :=
  ∀ lt, 1/10 ≤ s.layer_priorities lt ∧ s.layer_priorities lt ≤ 2

/-- The same range condition on a bare priority assignment. -/
def rangeP (p : LayerType → ℚ) : Prop :=
  ∀ lt, 1/10 ≤ p lt ∧ p lt ≤ 2

/-! ## Theorems -/

/-- C10: `evaluateConvergence` is read-only: the call returns the data
store (its nodes, edges, cross-layer mappings, state bag and metadata) and
the evaluator's history exactly as given, alongside the score computed by
the pure scoring function; the history grows only through `add_metrics`. -/
theorem c10_evaluate_convergence_readonly (dag : DataStore)
    (history : List IterationMetrics) :
    evaluate_convergence_call dag history = (evaluate_convergence dag history, dag, history) :=
  rfl

/-- C1 (divergence witness): for the feedback
`{decision:"adjust", adjustments:{layer_priorities:{layer_feedback:{"function":0.5}}}}`,
`_process_user_feedback` passes the whole `adjustments` dict to
`adjust_priorities`, which finds no top-level `"layer_feedback"` key and
leaves the function layer's priority at 1.0 instead of raising it to 1.5;
the increase does occur when `adjust_priorities` is handed the nested dict
directly, as the spec describes. -/
theorem c1_adjust_feedback_is_dropped :
    (process_user_feedback defaultStrategy
      (some [("decision", JVal.jstr "adjust"),
             ("adjustments", JVal.jobj
               [("layer_priorities", JVal.jobj
                 [("layer_feedback", JVal.jobj [("function", JVal.jnum (1/2))])])])])).map
      (fun s => s.layer_priorities .function) = some 1 ∧
    (adjust_priorities defaultStrategy
      [("layer_feedback", JVal.jobj [("function", JVal.jnum (1/2))])]).map
      (fun s => s.layer_priorities .function) = some (3/2) ∧
    (1 : ℚ) ≠ 3/2 := by
  refine ⟨by with_unfolding_all decide, by with_unfolding_all decide, by norm_num⟩

/-- C3 (counterexample): seeding the strategy from `initialRequirements`
stores `float(priority)` without clamping, so the requirement
`{layer_priorities: {"function": 5.0}}` drives the function layer's
priority to 5.0, outside `[0.1, 2.0]`. -/
theorem c3_requirements_seeding_escapes_range :
    (initialize_strategy_from_requirements defaultStrategy
      [("layer_priorities", JVal.jobj [("function", JVal.jnum 5)])]).map
      (fun s => s.layer_priorities .function) = some 5 ∧
    ¬ (1/10 ≤ (5 : ℚ) ∧ (5 : ℚ) ≤ 2) := by
  refine ⟨rfl, by norm_num⟩

/-- C6: the stability sub-score is exactly 0.5 when the history holds
fewer than 3 metrics, and otherwise equals
`max(0, 1 - 10 * populationVariance(last 3 convergence scores))`. -/
theorem c6_stability_formula (history : List IterationMetrics) :
    (history.length < 3 → evaluate_stability history = 1/2) ∧
    (3 ≤ history.length →
      evaluate_stability history =
        max 0 (1 - 10 * specPopulationVariance
          ((history.drop (history.length - 3)).map (fun m => m.convergence_score)))) := by
  constructor
  · intro h
    simp [evaluate_stability, h]
  · intro h
    have h' : ¬ history.length < 3 := by omega
    simp only [evaluate_stability, h', if_false, specPopulationVariance]
    congr 1
    ring

/-- C6 witness: the theorem instantiated at an empty history and at a
concrete 3-entry history. -/
theorem c6_stability_formula_witness :
    evaluate_stability [] = 1/2 ∧
    evaluate_stability
      [({convergence_score := 1/2} : IterationMetrics),
       ({convergence_score := 1/4} : IterationMetrics),
       ({convergence_score := 1/4} : IterationMetrics)] =
      max 0 (1 - 10 * specPopulationVariance
        (([({convergence_score := 1/2} : IterationMetrics),
           ({convergence_score := 1/4} : IterationMetrics),
           ({convergence_score := 1/4} : IterationMetrics)].drop
            ([({convergence_score := 1/2} : IterationMetrics),
              ({convergence_score := 1/4} : IterationMetrics),
              ({convergence_score := 1/4} : IterationMetrics)].length - 3)).map
          (fun m => m.convergence_score))) :=
  ⟨(c6_stability_formula []).1 (by decide),
   (c6_stability_formula _).2 (by decide)⟩

/-- C2 (counterexample): in the scenario — empty store, default
configuration except `max_iterations = 5`, threshold 0.85, no callbacks —
the run exhausts its 5 iterations without meeting the threshold, and the
final phase is *not* COMPLETED: `iterate_build` sets COMPLETED only inside
the convergence-threshold branch, so exhausting `max_iterations` leaves
the phase at ITERATING. -/
theorem c2_final_phase_not_completed :
    ¬ (iterate_build { max_iterations := 5 } none emptyStore []).phase =
      IterationPhase.completed := by
  with_unfolding_all decide

/-- C2 (amended): in the same scenario the call returns the store
normally after exactly 5 iterations, the store's state carries
`validation_status = "completed"`, `current_iteration = 5` and the last
convergence score, and the final phase is ITERATING (not COMPLETED). -/
theorem c2_scenario_amended :
    (iterate_build { max_iterations := 5 } none emptyStore []).returned = true ∧
    (iterate_build { max_iterations := 5 } none emptyStore []).current_iteration = 5 ∧
    (iterate_build { max_iterations := 5 } none emptyStore []).phase =
      IterationPhase.iterating ∧
    jstrOf (jget (iterate_build { max_iterations := 5 } none emptyStore []).dag.state
      "validation_status") = some "completed" ∧
    jnumOf (jget (iterate_build { max_iterations := 5 } none emptyStore []).dag.state
      "current_iteration") = 5 := by
  with_unfolding_all decide

/-- C9: with `max_iterations ≤ 0` the loop body runs zero times, the
post-loop stamping reads the never-bound loop local `metrics` and raises,
so `iterate_build` never returns the store normally; when the strategy
seeding step does not itself raise (e.g. no initial requirements), the
raise happens inside the `try` and the phase ends at ERROR. -/
theorem c9_nonpositive_max_iterations (cfg : IterationConfig)
    (fcb : Option FeedbackCallback) (dag : DataStore)
    (initReq : List (String × JVal)) (h : cfg.max_iterations ≤ 0) :
    (iterate_build cfg fcb dag initReq).returned = false ∧
    (iterate_build cfg fcb dag initReq).current_iteration = 0 ∧
    (initReq = [] → (iterate_build cfg fcb dag initReq).phase = IterationPhase.error) := by
  have ht : cfg.max_iterations.toNat = 0 := by omega
  unfold iterate_build
  cases hinit : (if initReq.isEmpty then some defaultStrategy
      else initialize_strategy_from_requirements defaultStrategy initReq) with
  | none =>
    refine ⟨rfl, rfl, ?_⟩
    intro he
    subst he
    simp at hinit
  | some strat =>
    rw [ht]
    exact ⟨rfl, rfl, fun _ => rfl⟩

/-- C9 witness: the theorem instantiated at `max_iterations = 0` with an
empty store, no callback and no requirements. -/
theorem c9_nonpositive_max_iterations_witness :
    (iterate_build { max_iterations := 0 } none emptyStore []).returned = false ∧
    (iterate_build { max_iterations := 0 } none emptyStore []).current_iteration = 0 ∧
    (iterate_build { max_iterations := 0 } none emptyStore []).phase =
      IterationPhase.error :=
  let h := c9_nonpositive_max_iterations { max_iterations := 0 } none emptyStore []
    (by norm_num)
  ⟨h.1, h.2.1, h.2.2 rfl⟩

/-- Effect of `_create_initial_nodes` on a layer with no nodes: exactly
the 3 template nodes, at positions `(i*200, 100)`, with the template
labels, and no other component of the store touched. -/
theorem create_initial_nodes_props (lt : LayerType) (dag : DataStore)
    (h0 : dag.nodes lt = []) :
    ((create_initial_nodes lt dag).nodes lt).map (fun p => (p.2.posx, p.2.posy)) =
      [(0, 100), (200, 100), (400, 100)] ∧
    ((create_initial_nodes lt dag).nodes lt).map (fun p => p.2.label) =
      (initial_node_templates lt).map (fun t => t.1) ∧
    ((create_initial_nodes lt dag).nodes lt).length = 3 ∧
    (∀ l, l ≠ lt → (create_initial_nodes lt dag).nodes l = dag.nodes l) ∧
    (create_initial_nodes lt dag).edges = dag.edges ∧
    (create_initial_nodes lt dag).state = dag.state ∧
    (create_initial_nodes lt dag).metadata = dag.metadata ∧
    (create_initial_nodes lt dag).cross_layer_mappings = dag.cross_layer_mappings := by
  cases lt <;>
    refine ⟨?_, ?_, ?_, fun l hl => ?_, rfl, rfl, rfl, rfl⟩ <;>
    simp only [create_initial_nodes, initial_node_templates, List.foldl, DataStore.add_node] <;>
    first
    | (rw [h0]; with_unfolding_all decide)
    | simp only [if_neg hl]

/-- C5: the structure-focus optimize pass mutates the store only when
`iteration_number = 1` and the layer has zero nodes; in that case it adds
exactly the 3 layer-specific template nodes at positions `(i*200, 100)`
for `i = 0, 1, 2` and changes nothing else; and running the pass twice is
the same as running it once (seeding is idempotent). -/
theorem c5_structure_seeding (lt : LayerType) (dag : DataStore) (it : Int) :
    (¬ (it = 1 ∧ (dag.nodes lt).length = 0) → optimize_structure lt dag it = dag) ∧
    ((dag.nodes lt).length = 0 →
      ((optimize_structure lt dag 1).nodes lt).map (fun p => (p.2.posx, p.2.posy)) =
        [(0, 100), (200, 100), (400, 100)] ∧
      ((optimize_structure lt dag 1).nodes lt).map (fun p => p.2.label) =
        (initial_node_templates lt).map (fun t => t.1) ∧
      (∀ l, l ≠ lt → (optimize_structure lt dag 1).nodes l = dag.nodes l) ∧
      (optimize_structure lt dag 1).edges = dag.edges ∧
      (optimize_structure lt dag 1).state = dag.state ∧
      (optimize_structure lt dag 1).metadata = dag.metadata ∧
      (optimize_structure lt dag 1).cross_layer_mappings = dag.cross_layer_mappings) ∧
    optimize_structure lt (optimize_structure lt dag 1) 1 = optimize_structure lt dag 1 := by
  have hopt : ∀ d : DataStore, (d.nodes lt).length = 0 →
      optimize_structure lt d 1 = create_initial_nodes lt d := by
    intro d hd
    unfold optimize_structure
    rw [if_pos ⟨rfl, hd⟩]
  have hnopt : ∀ (d : DataStore) (i : Int), ¬ (i = 1 ∧ (d.nodes lt).length = 0) →
      optimize_structure lt d i = d := by
    intro d i hi
    unfold optimize_structure
    rw [if_neg hi]
  refine ⟨hnopt dag it, fun h => ?_, ?_⟩
  · have h0 : dag.nodes lt = [] := List.length_eq_zero.mp h
    obtain ⟨p1, p2, _, p4, p5, p6, p7, p8⟩ := create_initial_nodes_props lt dag h0
    rw [hopt dag h]
    exact ⟨p1, p2, p4, p5, p6, p7, p8⟩
  · by_cases h : (dag.nodes lt).length = 0
    · rw [hopt dag h]
      have h3 : ((create_initial_nodes lt dag).nodes lt).length = 3 :=
        (create_initial_nodes_props lt dag (List.length_eq_zero.mp h)).2.2.1
      exact hnopt _ 1 (by simp [h3])
    · rw [hnopt dag 1 (by tauto)]
      exact hnopt dag 1 (by tauto)

/-- C5 witness: the theorem instantiated at the function layer of an
empty store. -/
theorem c5_structure_seeding_witness :
    optimize_structure .function emptyStore 2 = emptyStore ∧
    ((optimize_structure .function emptyStore 1).nodes .function).map
      (fun p => (p.2.posx, p.2.posy)) = [(0, 100), (200, 100), (400, 100)] :=
  ⟨(c5_structure_seeding .function emptyStore 2).1 (by simp),
   ((c5_structure_seeding .function emptyStore 1).2.1 rfl).1⟩

/-- Each execution of the loop body advances the iteration counter by
exactly one, on every control path (feedback or not, error or not,
converged or not). -/
theorem iterationRound_increment (cfg : IterationConfig) (fcb : Option FeedbackCallback)
    (st : LoopState) :
    (iterationRound cfg fcb st).current_iteration = st.current_iteration + 1 := by
  unfold iterationRound
  dsimp only
  repeat' split
  all_goals rfl

/-- The fuelled loop advances the iteration counter by at most its fuel. -/
theorem iterateLoop_bound (cfg : IterationConfig) (fcb : Option FeedbackCallback) :
    ∀ (fuel : Nat) (st : LoopState),
      (iterateLoop cfg fcb fuel st).current_iteration ≤ st.current_iteration + fuel := by
  intro fuel
  induction fuel with
  | zero => intro st; simp [iterateLoop]
  | succ n ih =>
    intro st
    unfold iterateLoop
    split
    · dsimp only
      split
      · rw [iterationRound_increment]
        omega
      · have h1 := ih (iterationRound cfg fcb st)
        rw [iterationRound_increment] at h1
        omega
    · omega

/-- C7: for every store, configuration, requirements and callbacks,
`iterate_build` performs at most `max_iterations` iteration rounds (the
final iteration counter, which rises by exactly one per round from zero,
never exceeds `max(max_iterations, 0)`) — and, being a total function of
its fuelled loop, it terminates even when the convergence threshold is
never reached. -/
theorem c7_iteration_bound (cfg : IterationConfig) (fcb : Option FeedbackCallback)
    (dag : DataStore) (initReq : List (String × JVal)) :
    (iterate_build cfg fcb dag initReq).current_iteration ≤ max cfg.max_iterations 0 := by
  unfold iterate_build
  cases hinit : (if initReq.isEmpty then some defaultStrategy
      else initialize_strategy_from_requirements defaultStrategy initReq) with
  | none => simp
  | some strat =>
    have hb := iterateLoop_bound cfg fcb cfg.max_iterations.toNat
      { dag := dag, strategy := strat, evalHistory := [], iterHistory := []
        current_iteration := 0, phase := .iterating, lastMetrics := none, error := false }
    dsimp only
    split
    · dsimp only at hb ⊢
      omega
    · split <;> (dsimp only at hb ⊢; omega)

/-- One `add_metrics` call is append-then-truncate-to-50. -/
theorem add_metrics_keepLast50 (h : List IterationMetrics) (m : IterationMetrics) :
    add_metrics h m = keepLast50 (h ++ [m]) := rfl

/-- Truncation is the identity on histories within the bound. -/
theorem keepLast50_of_le (l : List IterationMetrics) (h : l.length ≤ 50) :
    keepLast50 l = l := by
  unfold keepLast50
  rw [if_neg (by omega)]

/-- `add_metrics` keeps a bounded history bounded. -/
theorem add_metrics_length_le (h : List IterationMetrics) (m : IterationMetrics)
    (hh : h.length ≤ 50) : (add_metrics h m).length ≤ 50 := by
  unfold add_metrics
  dsimp only
  split
  · simp only [List.length_drop, List.length_append, List.length_cons, List.length_nil]
    omega
  · rename_i hlt
    simp only [List.length_append, List.length_cons, List.length_nil, not_lt] at hlt ⊢
    omega

/-- Dropping the oldest entry of an over-full history commutes with
truncation. -/
theorem keepLast50_drop_one (L : List IterationMetrics) (h : 51 ≤ L.length) :
    keepLast50 (L.drop 1) = keepLast50 L := by
  unfold keepLast50
  rw [List.length_drop]
  by_cases h50 : L.length = 51
  · rw [if_neg (by omega), if_pos (by omega)]
    congr 1
    omega
  · rw [if_pos (by omega), if_pos (by omega)]
    rw [List.drop_drop]
    congr 1
    omega

/-- Folding `add_metrics` over a stream of metrics keeps exactly the most
recent 50 of everything appended so far. -/
theorem foldl_add_metrics (ms : List IterationMetrics) :
    ∀ h : List IterationMetrics, h.length ≤ 50 →
      ms.foldl add_metrics h = keepLast50 (h ++ ms) := by
  induction ms with
  | nil =>
    intro h hh
    rw [List.foldl_nil, List.append_nil, keepLast50_of_le _ hh]
  | cons m ms ih =>
    intro h hh
    rw [List.foldl_cons, ih (add_metrics h m) (add_metrics_length_le h m hh),
      add_metrics_keepLast50]
    by_cases hc : (h ++ [m]).length ≤ 50
    · rw [keepLast50_of_le _ hc, List.append_assoc]
      rfl
    · have h51 : (h ++ [m]).length = 51 := by
        simp only [List.length_append, List.length_cons, List.length_nil] at hc ⊢
        omega
      have hk : keepLast50 (h ++ [m]) = (h ++ [m]).drop 1 := by
        unfold keepLast50
        rw [if_pos (by omega)]
        congr 1
        omega
      rw [hk, (List.drop_append_of_le_length (by omega)).symm,
        keepLast50_drop_one _ (by simp only [List.length_append] at h51 ⊢; omega),
        List.append_assoc]
      rfl

/-- C8: `add_metrics` appends and truncates to the most recent 50 entries
(oldest dropped first); appending 60 metrics to an initially empty
history leaves exactly the last 50 appended entries in their original
order. -/
theorem c8_history_ring :
    (∀ (h : List IterationMetrics) (m : IterationMetrics),
        add_metrics h m = keepLast50 (h ++ [m])) ∧
    ∀ ms : List IterationMetrics, ms.length = 60 →
      ms.foldl add_metrics [] = ms.drop 10 ∧ (ms.foldl add_metrics []).length = 50 := by
  refine ⟨fun h m => rfl, fun ms hm => ?_⟩
  have hf := foldl_add_metrics ms [] (by simp)
  rw [List.nil_append] at hf
  rw [hf]
  unfold keepLast50
  rw [if_pos (by omega)]
  refine ⟨by congr 1; omega, by rw [List.length_drop]; omega⟩

/-- C8 witness: 60 pairwise-distinct metrics records folded into an empty
history leave entries 11..60. -/
theorem c8_history_ring_witness :
    ((List.range 60).map
      (fun (i : Nat) => ({ iteration_number := (i : Int) } : IterationMetrics))).foldl
      add_metrics [] =
    ((List.range 60).map
      (fun (i : Nat) => ({ iteration_number := (i : Int) } : IterationMetrics))).drop 10 :=
  (c8_history_ring.2 _ (by rw [List.length_map, List.length_range])).1

/-- Division by `max 1 t` of a value in `[0, t]` lands in `[0, 1]`. -/
theorem divMaxOne (c t : ℚ) (h0 : 0 ≤ c) (hct : c ≤ t) :
    0 ≤ c / max 1 t ∧ c / max 1 t ≤ 1 := by
  have hm : (0:ℚ) < max 1 t := lt_of_lt_of_le one_pos (le_max_left _ _)
  refine ⟨div_nonneg h0 hm.le, ?_⟩
  rw [div_le_one hm]
  exact hct.trans (le_max_right _ _)

/-- Each structure-completeness step adds a layer score in `[0, 1]` and
bumps the layer count, preserving `0 ≤ total ≤ count`. -/
theorem struct_step_invariant (dag : DataStore) (acc : ℚ × Nat) (lt : LayerType)
    (h0 : 0 ≤ acc.1) (h1 : acc.1 ≤ (acc.2 : ℚ)) :
    0 ≤ (struct_step dag acc lt).1 ∧
    (struct_step dag acc lt).1 ≤ ((struct_step dag acc lt).2 : ℚ) := by
  unfold struct_step
  dsimp only
  split
  · have hn0 : (0:ℚ) ≤ min 1 (((dag.nodes lt).length : ℚ) / 5) :=
      le_min (by norm_num) (by positivity)
    have hn1 : min 1 (((dag.nodes lt).length : ℚ) / 5) ≤ 1 := min_le_left _ _
    have hc01 : (0:ℚ) ≤
        (if (dag.nodes lt).length > 1 then
          min 1 (((dag.edges lt).length : ℚ) /
            max 1 (((dag.nodes lt).length : ℚ) * (((dag.nodes lt).length : ℚ) - 1)) * 10)
        else 0) ∧
        (if (dag.nodes lt).length > 1 then
          min 1 (((dag.edges lt).length : ℚ) /
            max 1 (((dag.nodes lt).length : ℚ) * (((dag.nodes lt).length : ℚ) - 1)) * 10)
        else 0) ≤ 1 := by
      split
      · have hd : (0:ℚ) < max 1 (((dag.nodes lt).length : ℚ) * (((dag.nodes lt).length : ℚ) - 1)) :=
          lt_of_lt_of_le one_pos (le_max_left _ _)
        refine ⟨le_min (by norm_num) ?_, min_le_left _ _⟩
        have : (0:ℚ) ≤ ((dag.edges lt).length : ℚ) /
            max 1 (((dag.nodes lt).length : ℚ) * (((dag.nodes lt).length : ℚ) - 1)) :=
          div_nonneg (by positivity) hd.le
        linarith
      · norm_num
    obtain ⟨hc0, hc1⟩ := hc01
    constructor
    · dsimp only
      linarith
    · dsimp only
      push_cast
      linarith
  · exact ⟨h0, h1⟩

/-- The structure-completeness fold preserves `0 ≤ total ≤ count`. -/
theorem foldl_struct_invariant (dag : DataStore) (l : List LayerType) :
    ∀ acc : ℚ × Nat, 0 ≤ acc.1 → acc.1 ≤ (acc.2 : ℚ) →
      0 ≤ (l.foldl (struct_step dag) acc).1 ∧
      (l.foldl (struct_step dag) acc).1 ≤ ((l.foldl (struct_step dag) acc).2 : ℚ) := by
  induction l with
  | nil => intro acc h0 h1; exact ⟨h0, h1⟩
  | cons x xs ih =>
    intro acc h0 h1
    obtain ⟨g0, g1⟩ := struct_step_invariant dag acc x h0 h1
    exact ih _ g0 g1

/-- The structure-completeness sub-score lies in `[0, 1]`. -/
theorem structure_completeness_bounds (dag : DataStore) :
    0 ≤ evaluate_structure_completeness dag ∧ evaluate_structure_completeness dag ≤ 1 := by
  unfold evaluate_structure_completeness
  obtain ⟨h0, h1⟩ := foldl_struct_invariant dag LayerType.all (0, 0) (by norm_num) (by norm_num)
  exact divMaxOne _ _ h0 h1

/-- Each consistency step preserves `0 ≤ mapped ≤ checked`. -/
theorem map_step_invariant (dag : DataStore) (src tgt : LayerType) (acc : ℚ × Nat)
    (p : String × BaseNodeData) (h0 : 0 ≤ acc.1) (h1 : acc.1 ≤ (acc.2 : ℚ)) :
    0 ≤ (map_step dag src tgt acc p).1 ∧
    (map_step dag src tgt acc p).1 ≤ ((map_step dag src tgt acc p).2 : ℚ) := by
  unfold map_step
  dsimp only
  push_cast
  split <;> constructor <;> linarith

/-- The consistency fold preserves `0 ≤ mapped ≤ checked`. -/
theorem foldl_map_invariant (dag : DataStore) (src tgt : LayerType)
    (l : List (String × BaseNodeData)) :
    ∀ acc : ℚ × Nat, 0 ≤ acc.1 → acc.1 ≤ (acc.2 : ℚ) →
      0 ≤ (l.foldl (map_step dag src tgt) acc).1 ∧
      (l.foldl (map_step dag src tgt) acc).1 ≤ ((l.foldl (map_step dag src tgt) acc).2 : ℚ) := by
  induction l with
  | nil => intro acc h0 h1; exact ⟨h0, h1⟩
  | cons x xs ih =>
    intro acc h0 h1
    obtain ⟨g0, g1⟩ := map_step_invariant dag src tgt acc x h0 h1
    exact ih _ g0 g1

/-- The cross-layer consistency sub-score lies in `[0, 1]`. -/
theorem consistency_bounds (dag : DataStore) :
    0 ≤ evaluate_layer_consistency dag ∧ evaluate_layer_consistency dag ≤ 1 := by
  unfold evaluate_layer_consistency
  have i1 := foldl_map_invariant dag .function .logic (dag.nodes .function) (0, 0)
    (by norm_num) (by norm_num)
  have i2 := foldl_map_invariant dag .logic .code (dag.nodes .logic) _ i1.1 i1.2
  exact divMaxOne _ _ i2.1 i2.2

/-- The quality sub-score lies in `[0, 1]`. -/
theorem quality_bounds (dag : DataStore) :
    0 ≤ evaluate_quality_metrics dag ∧ evaluate_quality_metrics dag ≤ 1 := by
  unfold evaluate_quality_metrics
  dsimp only
  split_ifs with ht hv1 hv2 hv1 hv2 <;>
    simp only [List.sum_cons, List.sum_nil, List.length_cons, List.length_nil] <;>
    norm_num
  all_goals
    have hmin0 : (0:ℚ) ≤ min 1 (jnumOf (jget dag.state "total_nodes") / 10) :=
      le_min (by norm_num) (by positivity)
  all_goals
    have hmin1 : min 1 (jnumOf (jget dag.state "total_nodes") / 10) ≤ 1 := min_le_left _ _
  all_goals constructor <;> linarith

/-- The stability sub-score lies in `[0, 1]`. -/
theorem stability_bounds (history : List IterationMetrics) :
    0 ≤ evaluate_stability history ∧ evaluate_stability history ≤ 1 := by
  unfold evaluate_stability
  split
  · norm_num
  · dsimp only
    refine ⟨le_max_left 0 _, max_le (by norm_num) ?_⟩
    have hv : (0:ℚ) ≤
        (((((history.drop (history.length - 3)).map (fun m => m.convergence_score)).map
          (fun score => (score - ((history.drop (history.length - 3)).map
            (fun m => m.convergence_score)).sum /
            ((((history.drop (history.length - 3)).map
              (fun m => m.convergence_score)).length : ℚ))) ^ 2)).sum) /
          ((((history.drop (history.length - 3)).map (fun m => m.convergence_score)).length : ℚ))) := by
      apply div_nonneg
      · apply List.sum_nonneg
        intro x hx
        obtain ⟨s, _, rfl⟩ := List.mem_map.mp hx
        positivity
      · positivity
    linarith

/-- C4: for every store and history, `evaluate_convergence` equals the
weighted sum of the four sub-scores with weights `[0.30, 0.30, 0.25,
0.15]` (the final clamp is the identity because the weighted sum of
sub-scores in `[0, 1]` already lies in `[0, 1]`), and the result is in
`[0, 1]`. -/
theorem c4_convergence_weighted_sum_bounds (dag : DataStore)
    (history : List IterationMetrics) :
    evaluate_convergence dag history =
      3/10 * evaluate_structure_completeness dag +
      3/10 * evaluate_layer_consistency dag +
      1/4 * evaluate_quality_metrics dag +
      3/20 * evaluate_stability history ∧
    0 ≤ evaluate_convergence dag history ∧ evaluate_convergence dag history ≤ 1 := by
  obtain ⟨a0, a1⟩ := structure_completeness_bounds dag
  obtain ⟨b0, b1⟩ := consistency_bounds dag
  obtain ⟨c0, c1⟩ := quality_bounds dag
  obtain ⟨d0, d1⟩ := stability_bounds history
  have hW : ((([evaluate_structure_completeness dag, evaluate_layer_consistency dag,
        evaluate_quality_metrics dag, evaluate_stability history].zip
        ([3/10, 3/10, 1/4, 3/20] : List ℚ)).map (fun p => p.1 * p.2)).sum) =
      3/10 * evaluate_structure_completeness dag +
      3/10 * evaluate_layer_consistency dag +
      1/4 * evaluate_quality_metrics dag +
      3/20 * evaluate_stability history := by
    simp only [List.zip, List.zipWith, List.map, List.sum_cons, List.sum_nil]
    ring
  have e0 : (0:ℚ) ≤ 3/10 * evaluate_structure_completeness dag +
      3/10 * evaluate_layer_consistency dag +
      1/4 * evaluate_quality_metrics dag +
      3/20 * evaluate_stability history := by linarith
  have e1 : 3/10 * evaluate_structure_completeness dag +
      3/10 * evaluate_layer_consistency dag +
      1/4 * evaluate_quality_metrics dag +
      3/20 * evaluate_stability history ≤ 1 := by linarith
  have heq : evaluate_convergence dag history =
      3/10 * evaluate_structure_completeness dag +
      3/10 * evaluate_layer_consistency dag +
      1/4 * evaluate_quality_metrics dag +
      3/20 * evaluate_stability history := by
    unfold evaluate_convergence
    dsimp only
    rw [hW, max_eq_right e0, min_eq_right e1]
  exact ⟨heq, heq ▸ e0, heq ▸ e1⟩

/-- One `adjust_priorities` loop step keeps every priority in range: a
skipped name changes nothing and an applied delta is clamped. -/
theorem adjust_one_preserves (p p' : LayerType → ℚ) (item : String × JVal)
    (h : adjust_one p item = some p') (hp : rangeP p) : rangeP p' := by
  obtain ⟨k, v⟩ := item
  unfold adjust_one at h
  dsimp only at h
  cases hL : LayerType.ofString k with
  | none =>
    rw [hL] at h
    dsimp only at h
    injection h with h'
    subst h'
    exact hp
  | some lt =>
    rw [hL] at h
    dsimp only at h
    cases v with
    | jstr a => exact Option.noConfusion h
    | jobj o => exact Option.noConfusion h
    | jnum d =>
      injection h with h'
      subst h'
      intro l
      unfold updatePriority
      split
      · exact ⟨le_max_left _ _, max_le (by norm_num) (min_le_left _ _)⟩
      · exact hp l

/-- The `adjust_priorities` item fold keeps every priority in range. -/
theorem foldlM_adjust_preserves (items : List (String × JVal)) :
    ∀ p p', items.foldlM adjust_one p = some p' → rangeP p → rangeP p' := by
  induction items with
  | nil =>
    intro p p' h hp
    rw [List.foldlM_nil] at h
    injection h with h'
    subst h'
    exact hp
  | cons x xs ih =>
    intro p p' h hp
    rw [List.foldlM_cons] at h
    cases hq : adjust_one p x with
    | none => rw [hq] at h; exact Option.noConfusion h
    | some q =>
      rw [hq] at h
      dsimp only [Bind.bind, Option.bind] at h
      exact ih q p' h (adjust_one_preserves p q x hq hp)

/-- A successful `adjust_priorities` call keeps every priority in range. -/
theorem adjust_priorities_preserves (s : IterationStrategy) (fb : List (String × JVal))
    (s' : IterationStrategy) (h : adjust_priorities s fb = some s')
    (hp : prioritiesInRange s) : prioritiesInRange s' := by
  unfold adjust_priorities at h
  cases hg : jget fb "layer_feedback" with
  | none =>
    rw [hg] at h
    dsimp only at h
    injection h with h'
    subst h'
    exact hp
  | some v =>
    rw [hg] at h
    cases v with
    | jstr a => exact Option.noConfusion h
    | jnum a => exact Option.noConfusion h
    | jobj items =>
      dsimp only [Option.map] at h
      cases hf : items.foldlM adjust_one s.layer_priorities with
      | none => rw [hf] at h; exact Option.noConfusion h
      | some p' =>
        rw [hf] at h
        dsimp only at h
        injection h with h'
        subst h'
        exact foldlM_adjust_preserves items s.layer_priorities p' hf hp

/-- `_apply_strategy_adjustments` never touches the layer priorities. -/
theorem apply_strategy_keeps_priorities (s : IterationStrategy) (sa : List (String × JVal))
    (s' : IterationStrategy) (h : apply_strategy_adjustments s sa = some s') :
    s'.layer_priorities = s.layer_priorities := by
  unfold apply_strategy_adjustments at h
  dsimp only at h
  cases hop : jget sa "optimization_params" with
  | none =>
    rw [hop] at h
    dsimp only at h
    injection h with h'
    subst h'
    cases hfo : jget sa "focus" with
    | none => rfl
    | some v =>
      cases v with
      | jstr f =>
        dsimp only
        cases OptimizationFocus.ofString f <;> rfl
      | jnum q => rfl
      | jobj o => rfl
  | some v =>
    rw [hop] at h
    cases v with
    | jstr a => exact Option.noConfusion h
    | jnum a => exact Option.noConfusion h
    | jobj ps =>
      dsimp only at h
      injection h with h'
      subst h'
      cases hfo : jget sa "focus" with
      | none => rfl
      | some v =>
        cases v with
        | jstr f =>
        dsimp only
        cases OptimizationFocus.ofString f <;> rfl
        | jnum q => rfl
        | jobj o => rfl

/-- The default priorities (1.0, 0.8, 0.6, 0.4) are in range. -/
theorem default_in_range : prioritiesInRange defaultStrategy := by
  intro lt
  cases lt <;> norm_num [defaultStrategy]

/-- A successful `_process_user_feedback` keeps every priority in range
(reject resets to defaults; adjust clamps; anything else is a no-op). -/
theorem process_user_feedback_preserves (s : IterationStrategy)
    (fb : Option (List (String × JVal))) (s' : IterationStrategy)
    (h : process_user_feedback s fb = some s') (hp : prioritiesInRange s) :
    prioritiesInRange s' := by
  unfold process_user_feedback at h
  cases fb with
  | none => exact Option.noConfusion h
  | some f =>
    dsimp only at h
    by_cases hrej : jstrOf (jget f "decision") = some "reject"
    · rw [if_pos hrej] at h
      injection h with h'
      subst h'
      exact default_in_range
    · rw [if_neg hrej] at h
      by_cases hadj : jstrOf (jget f "decision") = some "adjust"
      · rw [if_pos hadj] at h
        cases hg : jget f "adjustments" with
        | none =>
          rw [hg] at h
          dsimp only at h
          injection h with h'
          subst h'
          exact hp
        | some v =>
          rw [hg] at h
          cases v with
          | jstr a => exact Option.noConfusion h
          | jnum a => exact Option.noConfusion h
          | jobj adjustments =>
            dsimp only at h
            cases hst : (if (jget adjustments "strategy").isSome then
                match jget adjustments "strategy" with
                | some (JVal.jobj sa) => apply_strategy_adjustments s sa
                | _ => none
              else some s) with
            | none => rw [hst] at h; exact Option.noConfusion h
            | some s1 =>
              rw [hst] at h
              dsimp only at h
              have hs1 : prioritiesInRange s1 := by
                by_cases hk : (jget adjustments "strategy").isSome
                · rw [if_pos hk] at hst
                  cases hgs : jget adjustments "strategy" with
                  | none => rw [hgs] at hk; exact absurd hk (by simp)
                  | some w =>
                    rw [hgs] at hst
                    cases w with
                    | jstr a => exact Option.noConfusion hst
                    | jnum a => exact Option.noConfusion hst
                    | jobj sa =>
                      dsimp only at hst
                      intro lt
                      rw [apply_strategy_keeps_priorities s sa s1 hst]
                      exact hp lt
                · rw [if_neg hk] at hst
                  injection hst with h2
                  subst h2
                  exact hp
              by_cases hlp : (jget adjustments "layer_priorities").isSome
              · rw [if_pos hlp] at h
                exact adjust_priorities_preserves s1 adjustments s' h hs1
              · rw [if_neg hlp] at h
                injection h with h2
                subst h2
                exact hs1
      · rw [if_neg hadj] at h
        injection h with h'
        subst h'
        exact hp

/-- C3 (amended): every layer priority stays within `[0.1, 2.0]` under
default construction, `adjust_priorities` (arbitrary deltas — the clamp
bounds every updated entry) and feedback processing (reject resets to the
in-range defaults; adjust routes through the clamp; strategy adjustments
leave priorities untouched); the range is *not* preserved by strategy
seeding from `initial_requirements`, which stores the given value
unclamped (see the counterexample). -/
theorem c3_priority_range_amended :
    prioritiesInRange defaultStrategy ∧
    (∀ (s : IterationStrategy) (fb : List (String × JVal)) (s' : IterationStrategy),
      adjust_priorities s fb = some s' → prioritiesInRange s → prioritiesInRange s') ∧
    (∀ (s : IterationStrategy) (fb : Option (List (String × JVal)))
        (s' : IterationStrategy),
      process_user_feedback s fb = some s' → prioritiesInRange s → prioritiesInRange s') :=
  ⟨default_in_range, adjust_priorities_preserves, process_user_feedback_preserves⟩

/-- C3 witness: the amended theorem applied to the default strategy, to an
`adjust_priorities` call with a large positive delta (clamped to 2.0), and
to a reject feedback. -/
theorem c3_priority_range_amended_witness :
    prioritiesInRange defaultStrategy ∧
    prioritiesInRange ((adjust_priorities defaultStrategy
      [("layer_feedback", JVal.jobj [("function", JVal.jnum 100)])]).getD defaultStrategy) ∧
    prioritiesInRange ((process_user_feedback defaultStrategy
      (some [("decision", JVal.jstr "reject")])).getD defaultStrategy) := by
  refine ⟨c3_priority_range_amended.1, ?_, ?_⟩
  · exact c3_priority_range_amended.2.1 defaultStrategy
      [("layer_feedback", JVal.jobj [("function", JVal.jnum 100)])] _ rfl
      c3_priority_range_amended.1
  · exact c3_priority_range_amended.2.2 defaultStrategy
      (some [("decision", JVal.jstr "reject")]) _ rfl c3_priority_range_amended.1
